import Mathlib

/-!
Verification of the SEO audit service core (`app/tasks/orchestrator.py`,
`app/utils/error_handler.py`) against its natural-language specification.

The Python functions are shallowly embedded as executable Lean definitions:
pure string manipulation is modelled over `String` (Python `in` becomes an
explicit substring scan, `str.lower` becomes a character-wise ASCII lowering),
database writes become explicit state transformers on an `Audit` record,
JSON report blobs become a small inductive `JVal` type, and network effects
(HTTP probes, webhook delivery) are passed in as explicit outcome values.
-/

set_option autoImplicit false

namespace SeoAudit

/-! ## String utilities: Python `in`, `str.startswith`, `str.lower` -/

/-- Is `p` a character-wise prefix of `h`? (model of Python `str.startswith`). -/
def isPrefixL : List Char → List Char → Bool
  | [], _ => true
  | _ :: _, [] => false
  | p :: ps, h :: hs => p == h && isPrefixL ps hs

/-- Does `pat` occur as a contiguous substring of `hay`? (model of Python `pat in hay`). -/
def containsSubL : List Char → List Char → Bool
  | _, [] => true
  | [], _ :: _ => false
  | h :: t, p :: ps => isPrefixL (p :: ps) (h :: t) || containsSubL t (p :: ps)

/-- Python `pat in hay` on strings. -/
def containsSub (hay pat : String) : Bool :=
  containsSubL hay.data pat.data

/-- Python `s.startswith(p)`. -/
def strStartsWith (s p : String) : Bool :=
  isPrefixL p.data s.data

/-- Python `s.lower()` (ASCII case folding, which is all the source uses). -/
def strLower (s : String) : String :=
  String.mk (s.data.map Char.toLower)

/-! ## Error classifier (`app/utils/error_handler.py`)

`ERROR_PATTERNS` is a Python dict literal; dict iteration order is insertion
order, so it is embedded as an ordered list of
`(pattern, user_message, status)` triples in source order. -/

structure ErrorInfo where
  user_message : String
  technical_message : String
  status : String
  deriving Repr, DecidableEq

/-- The ordered substring-pattern table `ERROR_PATTERNS`. -/
def ERROR_PATTERNS : List (String × String × String) :=
  [ ("nxdomain", "Website not found. Please check the URL and try again.", "FAILED"),
    ("dns resolution failed", "Website not found. Please check the URL and try again.", "FAILED"),
    ("name or service not known", "Website not found. Please check the URL and try again.", "FAILED"),
    ("nodename nor servname provided", "Invalid website address. Please check the URL format.", "FAILED"),
    ("domain validation failed", "Website not found. Please check the URL and try again.", "FAILED"),
    ("does not exist", "Website not found. Please check the URL and try again.", "FAILED"),
    ("connection timeout", "Website is taking too long to respond. Please try again later.", "FAILED"),
    ("connection timed out", "Website is taking too long to respond. Please try again later.", "FAILED"),
    ("connection refused", "Website is currently unavailable. Please try again later.", "FAILED"),
    ("connection reset", "Connection to website was interrupted. Please try again.", "FAILED"),
    ("network is unreachable", "Network connection issue. Please check your internet connection.", "FAILED"),
    ("no route to host", "Website server is unreachable. Please try again later.", "FAILED"),
    ("http 400", "Invalid request to website. Please check the URL.", "FAILED"),
    ("http 401", "Website requires authentication to access.", "FAILED"),
    ("http 403", "Access to this website is forbidden.", "FAILED"),
    ("http 404", "The webpage was not found. Please check the URL.", "FAILED"),
    ("http 429", "Website is limiting requests. Please try again later.", "FAILED"),
    ("http 500", "Website is experiencing technical difficulties.", "PARTIAL"),
    ("http 502", "Website gateway error. Please try again later.", "FAILED"),
    ("http 503", "Website is temporarily unavailable. Please try again later.", "FAILED"),
    ("http 504", "Website gateway timeout. Please try again later.", "FAILED"),
    ("ssl", "Website security certificate issues detected.", "FAILED"),
    ("certificate", "Website security certificate issues detected.", "FAILED"),
    ("handshake", "Secure connection to website failed.", "FAILED"),
    ("redirect", "Website has configuration issues preventing analysis.", "FAILED"),
    ("too many redirects", "Website has too many redirects. Please check the URL.", "FAILED"),
    ("empty response", "Website returned no content to analyze.", "FAILED"),
    ("no content", "No content could be analyzed on this website.", "FAILED"),
    ("keyerror: \x27status\x27", "Website structure prevented proper analysis.", "FAILED"),
    ("keyerror: \x27url\x27", "Website structure prevented proper analysis.", "FAILED"),
    ("empty dataframe", "No analyzable content found on this website.", "FAILED"),
    ("keyerror: \x27title\x27", "Website structure prevented proper analysis.", "FAILED"),
    ("keyerror: \x27internal\x27", "Website structure prevented proper analysis.", "FAILED"),
    ("crawl validation failed", "Website could not be properly analyzed.", "FAILED"),
    ("crawl produced no usable results", "No content could be analyzed on this website.", "FAILED"),
    ("spider closed", "Website analysis was interrupted.", "PARTIAL"),
    ("closespider", "Website analysis reached configured limits.", "PARTIAL"),
    ("invalid url", "Please enter a valid website URL (e.g., https://example.com).", "FAILED"),
    ("malformed url", "Please enter a valid website URL format.", "FAILED"),
    ("missing scheme", "Please include http:// or https:// in the URL.", "FAILED"),
    ("permission denied", "System permission error occurred during analysis.", "FAILED"),
    ("disk space", "System storage issue during analysis.", "FAILED"),
    ("file not found", "Analysis results could not be processed.", "FAILED"),
    ("timeout", "Analysis took too long to complete. Please try again.", "FAILED"),
    ("timed out", "Website analysis timed out. Please try again later.", "FAILED"),
    ("memory", "Website is too large to analyze completely.", "PARTIAL"),
    ("out of memory", "Website is too large to analyze completely.", "PARTIAL") ]

/-- The generic fallback produced for unmatched messages. -/
def genericFallback (technical : String) : ErrorInfo :=
  { user_message := "Something went wrong while analyzing this website. Please try again.",
    technical_message := technical,
    status := "FAILED" }

/-- `if not error_message: error_message = "Unknown error occurred"`:
a `None` or empty (falsy) message is replaced by the sentinel. -/
def normalize_message : Option String → String
  | none => "Unknown error occurred"
  | some s => if s = "" then "Unknown error occurred" else s

/-- The pattern-matching core of `classify_error`: lower-case the message,
take the first pattern that occurs in it as a substring, fall back to the
generic `FAILED` result. -/
def classify_msg (msg : String) : ErrorInfo :=
  match ERROR_PATTERNS.find? (fun p => containsSub (strLower msg) p.1) with
  | some p => { user_message := p.2.1, technical_message := msg, status := p.2.2 }
  | none => genericFallback msg

/-- `classify_error(error_message, url=None)`: the `url` parameter is used
only for logging and does not affect the result, so it is omitted. -/
def classify_error (error_message : Option String) : ErrorInfo :=
  classify_msg (normalize_message error_message)

/-! ## Audit record and failure write (`orchestrator.py`)

The `audits` table row (`app/models/audit.py`) is modelled as a structure of
the columns the orchestrator mutates; `report_json` (a JSON column) is
modelled by the small inductive `JVal`, with the Python literal `{}` becoming
`JVal.jobj []`.  Database read-then-write is modelled as a state transformer
on `Audit`; `datetime.utcnow()` is passed in as an abstract timestamp. -/

/-- A JSON value, as stored in the `report_json` column. -/
inductive JVal where
  | jnull
  | jstr (s : String)
  | jnum (n : Int)
  | jarr (elems : List JVal)
  | jobj (fields : List (String × JVal))

/-- Lookup of a key in a JSON object (Python `d[k]` / `k in d`); `none` on
non-objects or missing keys. -/
def jlookup : JVal → String → Option JVal
  | JVal.jobj fields, k => fields.lookup k
  | _, _ => none

/-- The audit row: the columns touched by the orchestrator. -/
structure Audit where
  status : String
  error_message : Option String
  technical_error : Option String
  report_json : Option JVal
  completed_at : Option Nat

/-- `_mark_audit_failed(audit_id, error_message, url)`: classify the error,
then — only when the current status is in neither `"FAILED"` nor
`"COMPLETE"` — overwrite status, both error messages, `report_json` (with the
empty object `{}`) and `completed_at`.  Already-final audits are returned
unchanged (the duplicate report is only logged). -/
def mark_audit_failed (error_message : String) (now : Nat) (a : Audit) : Audit :=
  let info := classify_error (some error_message)
  if a.status = "FAILED" ∨ a.status = "COMPLETE" then a
  else
    { a with
      status := info.status,
      error_message := some info.user_message,
      technical_error := some info.technical_message,
      report_json := some (JVal.jobj []),
      completed_at := some now }

/-- The database write at the end of `compile_report_from_crawl` (lines
765-779): persist the initial report and move the audit to
`ANALYZING_EXTERNAL`. -/
def save_initial_report (report : JVal) (a : Audit) : Audit :=
  { a with status := "ANALYZING_EXTERNAL", report_json := some report }

/-- A key of an audit's persisted report (`audit.report_json[k]`), `none`
when the report is absent or lacks the key. -/
def report_field (a : Audit) (k : String) : Option JVal :=
  match a.report_json with
  | some r => jlookup r k
  | none => none

/-- The five internal-link buckets plus page findings, assembled by
`compile_report_from_crawl` into the `initial_report` dict (lines 722-754).
Summary and bucket contents are passed in already-serialised. -/
def initial_report (audit_id : Int) (summary iu ib ip im ierr plr : JVal) : JVal :=
  JVal.jobj
    [ ("status", JVal.jstr "ANALYZING_EXTERNAL"),
      ("audit_id", JVal.jnum audit_id),
      ("summary", summary),
      ("internal_unreachable_links", iu),
      ("internal_broken_links", ib),
      ("internal_permission_issue_links", ip),
      ("internal_method_issue_links", im),
      ("internal_other_client_errors", ierr),
      ("page_level_report", plr) ]

/-! ## Page-level heading check (`compile_report_from_crawl`, lines 487-547)

The crawl row's `h1` cell is either absent/NaN, a native list, or a plain
string (advertools stores headings as one `@@`-joined string).  `pd.isna` on
a scalar NaN is `True`, on a string `False`; on a list it returns a numpy
boolean array, whose truth test in `if pd.isna(h1_tags) or ...` (line 489)
evaluates falsy for zero- or one-element arrays but raises `ValueError`
("ambiguous truth value") for two or more elements — so a native list of two
or more headings aborts the page-level loop before any `isinstance` branch
runs, and the stage's exception handler (lines 562-570) routes the wrapped
message to `_mark_audit_failed`. -/

/-- The `h1` cell of one crawl record. -/
inductive H1Field where
  | absent
  | strField (s : String)
  | listField (l : List String)
  deriving Repr, DecidableEq

/-- The `value` entry of a page-level check result: `[]`, a string, or the
full heading list. -/
inductive CheckValue where
  | vstr (s : String)
  | vlist (l : List String)
  deriving Repr, DecidableEq

/-- One per-check entry appended to `page_report`. -/
structure CheckResult where
  status : String
  check : String
  message : String
  count : Nat
  value : CheckValue
  deriving Repr, DecidableEq

/-- The `ValueError` message numpy raises when a multi-element boolean array
is used as a truth value. -/
def ambiguous_truth_error : String :=
  "The truth value of an array with more than one element is ambiguous. Use a.any() or a.all()"

/-- The H1 branch of the per-page loop: absent/empty-list → FAILURE count 0;
singleton list → SUCCESS with the element; a native list of two or more
headings raises `ValueError` inside the truth test of `pd.isna(h1_tags)`
before any `isinstance` dispatch (so no multiple-headings finding is ever
produced); any other (non-list) truthy value → SUCCESS with `str(h1_tags)`,
falsy → FAILURE count 0. -/
def h1_check : H1Field → Except String CheckResult
  | H1Field.absent =>
      Except.ok
        { status := "FAILURE", check := "h1_heading", message := "No H1 tag found.",
          count := 0, value := CheckValue.vlist [] }
  | H1Field.listField [] =>
      Except.ok
        { status := "FAILURE", check := "h1_heading", message := "No H1 tag found.",
          count := 0, value := CheckValue.vlist [] }
  | H1Field.listField [x] =>
      Except.ok
        { status := "SUCCESS", check := "h1_heading", message := "Exactly one H1 tag found.",
          count := 1, value := CheckValue.vstr x }
  | H1Field.listField (_ :: _ :: _) =>
      Except.error ambiguous_truth_error
  | H1Field.strField s =>
      if s = "" then
        Except.ok
          { status := "FAILURE", check := "h1_heading", message := "No H1 tag found.",
            count := 0, value := CheckValue.vlist [] }
      else
        Except.ok
          { status := "SUCCESS", check := "h1_heading", message := "Exactly one H1 tag found.",
            count := 1, value := CheckValue.vstr s }

/-- The stage-level try/except around the page-level loop (lines 426 and
562-570): a clean check result leaves the audit untouched, while a raised
error is wrapped into `"Failed to compile page-level report: ..."` and
routed to the failure write before being re-raised. -/
def analyze_h1_stage (f : H1Field) (a : Audit) (now : Nat) :
    Except String CheckResult × Audit :=
  match h1_check f with
  | Except.ok res => (Except.ok res, a)
  | Except.error e =>
      (Except.error e,
        mark_audit_failed ("Failed to compile page-level report: " ++ e) now a)

/-! ## Hostname extraction

Model of Python `urlparse(url).hostname or ""` for absolute `http(s)` URLs:
the netloc is what follows the first `://` up to the first `/`, `?` or `#`;
the hostname drops a `user@` prefix and a `:port` suffix.  A URL without
`://` has no netloc and yields `""`. -/

/-- Remainder of `hay` after the first occurrence of `pat`, if any. -/
def afterSubL (pat : List Char) : List Char → Option (List Char)
  | [] => if pat.isEmpty then some [] else none
  | h :: t =>
      if isPrefixL pat (h :: t) then some ((h :: t).drop pat.length)
      else afterSubL pat t

/-- Characters up to the first URL delimiter `/`, `?` or `#`. -/
def takeUntilDelims : List Char → List Char
  | [] => []
  | c :: t => if c == '/' || c == '?' || c == '#' then [] else c :: takeUntilDelims t

/-- `urlparse(url).hostname or ""` (the source always feeds it an
already-lower-cased URL): the netloc stripped of a `user@` part (everything
up to the last `@`) and of a `:port` suffix. -/
def pyHostname (url : String) : String :=
  match afterSubL "://".data url.data with
  | none => ""
  | some rest =>
      let netloc := takeUntilDelims rest
      let host := (netloc.reverse.takeWhile (fun c => c != '@')).reverse
      String.mk (host.takeWhile (fun c => c != ':'))

/-- `urlparse(url).netloc` (used by the chunker's domain grouping): the raw
netloc, ports and userinfo included. -/
def pyNetloc (url : String) : String :=
  match afterSubL "://".data url.data with
  | none => ""
  | some rest => String.mk (takeUntilDelims rest)

/-! ## False-positive suppression (`is_likely_false_positive`, lines 1514-1695) -/

/-- `auth_patterns`: URL-substring patterns for authentication-gated paths. -/
def auth_patterns : List (String × String) :=
  [ ("/auth/", "Authentication endpoint"),
    ("/login/", "Login endpoint"),
    ("/signin/", "Sign-in endpoint"),
    ("/logout/", "Logout endpoint"),
    ("/dashboard/", "User dashboard - typically requires authentication"),
    ("/profile/", "User profile - requires authentication"),
    ("/account/", "Account management - requires authentication"),
    ("/membership/", "Membership area - requires authentication"),
    ("/admin/", "Admin area - requires authentication"),
    ("/user/", "User-specific content"),
    ("/my-", "User-specific \"my\" pages"),
    ("/settings/", "User settings - requires authentication"),
    ("/api/user", "User API endpoint"),
    ("/api/auth", "Authentication API"),
    ("/api/account", "Account API"),
    ("/api/profile", "Profile API"),
    ("/api/dashboard", "Dashboard API"),
    ("sessionid=", "Contains session identifier"),
    ("token=", "Contains authentication token"),
    ("auth_token=", "Contains auth token parameter"),
    ("access_token=", "Contains access token"),
    ("oauth", "OAuth authentication flow"),
    ("sso/", "Single Sign-On endpoint"),
    ("saml/", "SAML authentication"),
    ("jwt/", "JWT token endpoint") ]

/-- `auth_subdomains`: hostname `startswith` patterns. -/
def auth_subdomains : List String :=
  [ "account.", "auth.", "login.", "sso.", "admin.", "dashboard.",
    "portal.", "app.", "my.", "user.", "member.", "secure." ]

/-- `social_media_indicators`: bot-blocking platforms. -/
def social_media_indicators : List (String × String) :=
  [ ("facebook.com", "Facebook blocks automated requests"),
    ("twitter.com", "Twitter blocks automated access"),
    ("x.com", "X (Twitter) blocks automated access"),
    ("instagram.com", "Instagram blocks automated access"),
    ("linkedin.com", "LinkedIn blocks automated access"),
    ("tiktok.com", "TikTok blocks automated access"),
    ("youtube.com/user/", "YouTube user pages block crawlers"),
    ("github.com/settings", "GitHub settings require authentication"),
    ("pinterest.com", "Pinterest blocks automated access"),
    ("snapchat.com", "Snapchat blocks automated access") ]

/-- `marketing_tracking_patterns`. -/
def marketing_tracking_patterns : List (String × String) :=
  [ ("attn.tv", "Marketing tracking domain blocks crawlers"),
    ("doubleclick.net", "Google advertising tracking"),
    ("googlesyndication.com", "Google ads tracking"),
    ("googletagmanager.com", "Google Tag Manager"),
    ("googleadservices.com", "Google advertising"),
    ("facebook.com/tr", "Facebook pixel tracking"),
    ("analytics.google.com", "Google Analytics"),
    ("google-analytics.com", "Google Analytics"),
    ("amplitude.com", "Analytics tracking"),
    ("mixpanel.com", "Analytics tracking"),
    ("segment.com", "Analytics tracking"),
    ("hotjar.com", "User analytics"),
    ("zendesk.com/embeddable", "Zendesk widget"),
    ("intercom.io", "Customer support widget"),
    (".tracking.", "Tracking domain"),
    (".analytics.", "Analytics domain") ]

/-- `partner_redirect_patterns`. -/
def partner_redirect_patterns : List (String × String) :=
  [ ("/go/", "Partner redirect link requires referrer"),
    ("/redirect/", "Redirect endpoint requires referrer"),
    ("/r/", "Short redirect link"),
    ("/link/", "Link redirect"),
    ("/out/", "Outbound link redirect"),
    ("/track/", "Tracking redirect"),
    ("/click/", "Click tracking"),
    ("hp.com/go/", "HP partner redirect requires referrer"),
    ("hp.com/support/", "HP support partner link requires referrer"),
    ("adobe.com/go/", "Adobe partner redirect"),
    ("microsoft.com/en-us/p/", "Microsoft partner link"),
    ("amazon.com/dp/", "Amazon product link may require referrer") ]

/-- `subsidiary_enterprise_patterns`. -/
def subsidiary_enterprise_patterns : List (String × String) :=
  [ ("dacor.com", "Samsung subsidiary with bot protection"),
    ("harman.com", "Samsung subsidiary"),
    ("joyent.com", "Samsung subsidiary"),
    ("smartthings.com", "Samsung subsidiary"),
    ("viv.ai", "Samsung subsidiary"),
    (".enterprise.", "Enterprise subdomain"),
    (".corp.", "Corporate subdomain"),
    (".internal.", "Internal subdomain"),
    (".intranet.", "Intranet subdomain") ]

/-- `cdn_asset_patterns`. -/
def cdn_asset_patterns : List (String × String) :=
  [ (".cloudfront.net", "AWS CloudFront CDN"),
    (".fastly.com", "Fastly CDN"),
    (".jsdelivr.net", "jsDelivr CDN"),
    (".unpkg.com", "unpkg CDN"),
    (".bootstrapcdn.com", "Bootstrap CDN"),
    ("assets.", "Asset subdomain"),
    ("static.", "Static asset subdomain"),
    ("cdn.", "CDN subdomain"),
    ("media.", "Media subdomain") ]

/-- `is_likely_false_positive(url, status) -> (bool, reason)`:
`-1` (unreachable) is never a false positive; statuses outside 400-499 are
never filtered; otherwise the lower-cased URL is tested against the pattern
groups in source order (auth paths, auth subdomains, social media, marketing
and tracking, partner redirects, subsidiary or enterprise, CDN or asset). -/
def is_likely_false_positive (url : String) (status : Int) : Bool × String :=
  if status = -1 then (false, "Unreachable links are never false positives")
  else if status < 400 ∨ 500 ≤ status then (false, "")
  else
    let url_lower := strLower url
    match auth_patterns.find? (fun p => containsSub url_lower p.1) with
    | some p => (true, "Authentication-required: " ++ p.2)
    | none =>
    let hostname := pyHostname url_lower
    match auth_subdomains.find? (fun pat => strStartsWith hostname pat) with
    | some pat => (true, "Authentication subdomain: " ++ pat ++ "*")
    | none =>
    match social_media_indicators.find? (fun p => containsSub url_lower p.1) with
    | some p => (true, "Social media: " ++ p.2)
    | none =>
    match marketing_tracking_patterns.find? (fun p => containsSub url_lower p.1) with
    | some p => (true, "Marketing/tracking: " ++ p.2)
    | none =>
    match partner_redirect_patterns.find? (fun p => containsSub url_lower p.1) with
    | some p => (true, "Partner/redirect: " ++ p.2)
    | none =>
    match subsidiary_enterprise_patterns.find? (fun p => containsSub url_lower p.1) with
    | some p => (true, "Subsidiary/enterprise: " ++ p.2)
    | none =>
    match cdn_asset_patterns.find? (fun p => containsSub url_lower p.1) with
    | some p => (true, "CDN/asset: " ++ p.2)
    | none => (false, "")

/-! ## HEAD probe with GET fallback (`run_advertools_chunk`, lines 1328-1411)

The network is abstracted: the HEAD phase (`adv.crawl_headers`) is given as a
list of `(url, status)` rows, and the GET phase (`run_get_fallback_check`) as
an oracle `get : String → Int` returning the final status of a GET request
(`-1` for timeout/connection/request errors, per lines 1470-1509). -/

/-- One row of a chunk's output artifact.  Rows kept from the HEAD phase have
no `method_used` column, which the merge reads back as `"HEAD_ONLY"`; GET
fallback rows are marked `"GET_FALLBACK"`. -/
structure ProbeRow where
  url : String
  status : Int
  method_used : String
  deriving Repr, DecidableEq

/-- The escalation test of lines 1357-1359: HEAD status in 400-499, or the
unreachable sentinel `-1`. -/
def needs_fallback (s : Int) : Bool :=
  (400 ≤ s && s < 500) || s == -1

/-- `run_advertools_chunk` result assembly: HEAD rows that do not need
fallback are kept as-is (in order); every 4xx/unreachable URL is re-probed
with GET and the GET rows are appended, superseding the dropped HEAD rows. -/
def run_advertools_chunk (headResults : List (String × Int)) (get : String → Int) :
    List ProbeRow :=
  let kept := (headResults.filter (fun p => !needs_fallback p.2)).map
    (fun p => { url := p.1, status := p.2, method_used := "HEAD_ONLY" })
  let fallback_urls := (headResults.filter (fun p => needs_fallback p.2)).map Prod.fst
  kept ++ fallback_urls.map (fun u => { url := u, status := get u, method_used := "GET_FALLBACK" })

/-! ## Provenance mapping (`check_external_links`, lines 819-833) -/

/-- One step of the source-accumulation loop: append `source` to the entry of
`url`, creating the entry at the end on first sight (Python dict insertion
order). -/
def add_source (m : List (String × List String)) (url source : String) :
    List (String × List String) :=
  match m with
  | [] => [(url, [source])]
  | (k, v) :: rest =>
      if k = url then (k, v ++ [source]) :: rest
      else (k, v) :: add_source rest url source

/-- The raw `url_to_source_mapping` built from the `(link, source_url)`
records. -/
def build_raw_mapping (links : List (String × String)) : List (String × List String) :=
  links.foldl (fun m p => add_source m p.1 p.2) []

/-- `list(dict.fromkeys(xs))`: drop later duplicates, keep first-occurrence
order.  `seen` holds the keys already emitted. -/
def dedupe_aux (seen : List String) : List String → List String
  | [] => []
  | x :: xs =>
      if x ∈ seen then dedupe_aux seen xs
      else x :: dedupe_aux (x :: seen) xs

/-- Order-preserving deduplication (line 831). -/
def dedupe_keep_order (xs : List String) : List String :=
  dedupe_aux [] xs

/-- The final `url_to_source_mapping`: every value deduplicated preserving
order. -/
def build_source_mapping (links : List (String × String)) : List (String × List String) :=
  (build_raw_mapping links).map (fun p => (p.1, dedupe_keep_order p.2))

/-- Association-list lookup (Python `url in mapping` / `mapping[url]`). -/
def lookup_assoc (m : List (String × List String)) (u : String) : Option (List String) :=
  match m with
  | [] => none
  | (k, v) :: rest => if k = u then some v else lookup_assoc rest u

/-- Lines 1901-1903: the finding's sources are the mapping entry when
present, else the fallback `["External Link Check"]`. -/
def sources_for (m : List (String × List String)) (u : String) : List String :=
  match lookup_assoc m u with
  | some l => l
  | none => ["External Link Check"]

/-! ## Bucket categorisation and merge (`check_external_links_async`,
lines 1882-1925) -/

/-- The rendered `status` field of a finding: `-1` becomes the string
`"Unreachable"`, anything else stays numeric (line 1907). -/
inductive StatusVal where
  | unreachableS
  | code (n : Int)
  deriving Repr, DecidableEq

/-- A reported link finding. -/
structure LinkInfo where
  url : String
  status : StatusVal
  source_urls : List String
  deriving Repr, DecidableEq

/-- The five external-link buckets. -/
structure ExternalReport where
  unreachable_links : List LinkInfo
  broken_links : List LinkInfo
  permission_issues : List LinkInfo
  method_issues : List LinkInfo
  other_client_errors : List LinkInfo
  deriving Repr, DecidableEq

def ExternalReport.empty : ExternalReport :=
  { unreachable_links := [], broken_links := [], permission_issues := [],
    method_issues := [], other_client_errors := [] }

/-- All findings of a report, in bucket order. -/
def ExternalReport.all (r : ExternalReport) : List LinkInfo :=
  r.unreachable_links ++ r.broken_links ++ r.permission_issues ++
    r.method_issues ++ r.other_client_errors

/-- The bucket names, in the order of the if/elif chain of lines 1911-1925. -/
inductive Bucket where
  | unreachable
  | broken
  | permission
  | method
  | otherClient
  deriving Repr, DecidableEq

/-- The if/elif categorisation chain: `-1` → unreachable, 404/410 → broken,
403 → permission, 405 → method, other 4xx → other client error, 5xx →
broken; every remaining status matches no branch. -/
def categorize (s : Int) : Option Bucket :=
  if s = -1 then some Bucket.unreachable
  else if s = 404 ∨ s = 410 then some Bucket.broken
  else if s = 403 then some Bucket.permission
  else if s = 405 then some Bucket.method
  else if 400 ≤ s ∧ s < 500 then some Bucket.otherClient
  else if 500 ≤ s ∧ s < 600 then some Bucket.broken
  else none

/-- Append a finding to the bucket selected by the chain; a status matching
no branch leaves the report unchanged (the row is silently dropped). -/
def add_to_bucket (r : ExternalReport) (li : LinkInfo) (s : Int) : ExternalReport :=
  match categorize s with
  | some Bucket.unreachable => { r with unreachable_links := r.unreachable_links ++ [li] }
  | some Bucket.broken => { r with broken_links := r.broken_links ++ [li] }
  | some Bucket.permission => { r with permission_issues := r.permission_issues ++ [li] }
  | some Bucket.method => { r with method_issues := r.method_issues ++ [li] }
  | some Bucket.otherClient => { r with other_client_errors := r.other_client_errors ++ [li] }
  | none => r

/-- `"Unreachable" if status == -1 else status` (line 1907). -/
def render_status (s : Int) : StatusVal :=
  if s = -1 then StatusVal.unreachableS else StatusVal.code s

/-- The body of the per-error-row loop (lines 1884-1925): skip the row when
the false-positive classifier fires, otherwise build the finding (with merged
provenance) and append it to its bucket. -/
def process_row (m : List (String × List String)) (r : ExternalReport) (row : ProbeRow) :
    ExternalReport :=
  if (is_likely_false_positive row.url row.status).1 then r
  else add_to_bucket r
    { url := row.url, status := render_status row.status, source_urls := sources_for m row.url }
    row.status

/-- Line 1882's selection `~status.between(200, 399)` followed by the loop:
only rows outside 200-399 are considered error rows. -/
def process_error_rows (m : List (String × List String)) (rows : List ProbeRow) :
    ExternalReport :=
  (rows.filter (fun row => !(200 ≤ row.status && row.status ≤ 399))).foldl
    (process_row m) ExternalReport.empty

/-! ## Domain-aware chunking and the 100-URL ceiling
(`chunk_urls_by_domain` lines 1131-1171, `check_external_links_async`
lines 1715-1726) -/

/-- `chunks[idx].append(u)` after `while len(chunks) <= idx: chunks.append([])`:
extend the chunk list with empty chunks until index `idx` exists, then append
`u` there. -/
def append_at : List (List String) → Nat → String → List (List String)
  | [], 0, u => [[u]]
  | [], n + 1, u => [] :: append_at [] n u
  | c :: cs, 0, u => (c ++ [u]) :: cs
  | c :: cs, n + 1, u => c :: append_at cs n u

/-- The inner loop of lines 1150-1158: the `i`-th URL of a domain group goes
to chunk `i % max_chunk_size`. -/
def distribute_domain (max_chunk_size : Nat) (chunks : List (List String))
    (domain_urls : List String) : List (List String) :=
  domain_urls.enum.foldl (fun cs p => append_at cs (p.1 % max_chunk_size) p.2) chunks

/-- Lines 1164-1169: repeatedly peel `max_chunk_size`-prefixes off an
oversized chunk, keeping the non-empty remainder. -/
def split_chunk (max_chunk_size : Nat) (c : List String) : List (List String) :=
  if _h : 0 < max_chunk_size ∧ max_chunk_size < c.length then
    c.take max_chunk_size :: split_chunk max_chunk_size (c.drop max_chunk_size)
  else if c.isEmpty then [] else [c]
termination_by c.length
decreasing_by
  simp only [List.length_drop]
  omega

/-- `chunk_urls_by_domain(urls, max_chunk_size)`: group the URLs by netloc
(insertion-ordered, as a Python `defaultdict`), distribute each group
round-robin by index modulo the chunk size, then drop empty chunks and split
oversized ones. -/
def chunk_urls_by_domain (urls : List String) (max_chunk_size : Nat) :
    List (List String) :=
  let domain_groups := urls.foldl (fun gs u => add_source gs (pyNetloc u) u) []
  let chunks := domain_groups.foldl
    (fun cs g => distribute_domain max_chunk_size cs g.2) []
  chunks.foldl (fun acc c => if c.isEmpty then acc else acc ++ split_chunk max_chunk_size c) []

/-- `MAX_EXTERNAL_LINKS = 100` (line 1716). -/
def max_external_links : Nat := 100

/-- Lines 1717-1723: truncate the unique URL list to the first 100; the
excess is only logged. -/
def limit_external_urls (urls : List String) : List String :=
  if max_external_links < urls.length then urls.take max_external_links else urls

/-- The chunks actually probed by `check_external_links_async` (line 1726):
the capped URL list, chunked with `max_chunk_size = 20`. -/
def chunks_to_probe (urls : List String) : List (List String) :=
  chunk_urls_by_domain (limit_external_urls urls) 20

/-! ## Dashboard notifier (`send_report_to_dashboard`, lines 1007-1109)

The HTTP POST is abstracted as a `DeliveryOutcome`: a successful post (after
`raise_for_status`), an `httpx.RequestError` (network/transport failure), an
`httpx.HTTPStatusError` raised by `raise_for_status`, or any other exception.
The task's reaction is a `DeliveryAction`; the audit row is returned
unchanged alongside it, since the task never writes the database. -/

inductive DeliveryOutcome where
  | success (code : Int)
  | requestError (msg : String)
  | statusError (code : Int)
  | otherError (msg : String)
  deriving Repr, DecidableEq

inductive DeliveryAction where
  | retryAfter (countdown : Nat) (max_retries : Nat)
  | delivered
  | dropped
  deriving Repr, DecidableEq

/-- `send_report_to_dashboard(audit_id)` given the configured callback URL
and API key, the audit row read from the database (`none` when the id is
unknown), the current retry count `self.request.retries`, and the outcome of
the POST.  Only an `httpx.RequestError` triggers `self.retry` with countdown
`60 * 2 ** retries` and `max_retries=5`; every other exception is logged and
dropped; no branch writes the audit. -/
def send_report_to_dashboard (callback_url api_key : Option String)
    (audit : Option Audit) (retries : Nat) (outcome : DeliveryOutcome) :
    DeliveryAction × Option Audit :=
  match audit with
  | none => (DeliveryAction.dropped, none)
  | some a =>
      if callback_url.isNone || api_key.isNone then (DeliveryAction.dropped, some a)
      else
        match outcome with
        | DeliveryOutcome.success _ => (DeliveryAction.delivered, some a)
        | DeliveryOutcome.requestError _ =>
            (DeliveryAction.retryAfter (60 * 2 ^ retries) 5, some a)
        | DeliveryOutcome.statusError _ => (DeliveryAction.dropped, some a)
        | DeliveryOutcome.otherError _ => (DeliveryAction.dropped, some a)

/-! ## Concrete fixtures used by the counterexample theorems -/

/-- An audit already in the `ERROR` status (as written by
`save_final_report`'s exception handler, lines 990-992). -/
def c2_error_audit : Audit :=
  { status := "ERROR", error_message := some "old user message",
    technical_error := some "old technical detail",
    report_json := some (JVal.jobj [("summary", JVal.jstr "kept")]),
    completed_at := some 10 }

/-- An audit already in the `FAILED` status. -/
def c2_failed_audit : Audit :=
  { status := "FAILED", error_message := some "failed earlier",
    technical_error := some "boom", report_json := some (JVal.jobj []),
    completed_at := some 3 }

/-- A non-empty `internal_broken_links` bucket. -/
def c1_broken_bucket : JVal :=
  JVal.jarr
    [JVal.jobj
      [ ("url", JVal.jstr "https://site.example/dead"),
        ("status", JVal.jnum 404),
        ("source_urls", JVal.jarr [JVal.jstr "https://site.example/"]) ]]

/-- A checkpoint report carrying one internal broken-link finding. -/
def c1_checkpoint_report : JVal :=
  initial_report 7 (JVal.jobj []) (JVal.jarr []) c1_broken_bucket
    (JVal.jarr []) (JVal.jarr []) (JVal.jarr []) (JVal.jobj [])

/-- A pending audit about to receive the checkpoint. -/
def c1_start_audit : Audit :=
  { status := "PENDING", error_message := none, technical_error := none,
    report_json := none, completed_at := none }

/-! ## Theorems -/

/-- Every row of the pattern table carries status FAILED or PARTIAL. -/
theorem error_patterns_statuses :
    ∀ p ∈ ERROR_PATTERNS, p.2.2 = "FAILED" ∨ p.2.2 = "PARTIAL" := by
  decide

/-- C8: `classify_error` is total — every input (absent, empty, arbitrary)
yields a result whose status is FAILED or PARTIAL; any message containing
"NXDOMAIN" in any casing (i.e. whose lower-casing contains "nxdomain")
classifies to the FAILED "Website not found" entry; and absent, empty and
unmatched messages all yield the generic FAILED fallback. -/
theorem C8_classify_error_spec :
    (∀ msg : Option String,
        (classify_error msg).status = "FAILED" ∨ (classify_error msg).status = "PARTIAL")
    ∧ (∀ s : String, containsSub (strLower s) "nxdomain" = true →
        classify_error (some s) =
          { user_message := "Website not found. Please check the URL and try again.",
            technical_message := s, status := "FAILED" })
    ∧ classify_error none = genericFallback "Unknown error occurred"
    ∧ classify_error (some "") = genericFallback "Unknown error occurred"
    ∧ classify_error (some "mysterious failure 987") = genericFallback "mysterious failure 987" := by
  refine ⟨?_, ?_, by decide, by decide, by decide⟩
  · intro msg
    unfold classify_error classify_msg
    split
    · next p hp =>
        simpa using error_patterns_statuses p (List.mem_of_find?_eq_some hp)
    · next => simp [genericFallback]
  · intro s h
    have hs : ¬ s = "" := by
      intro he
      rw [he] at h
      exact absurd h (by decide)
    unfold classify_error
    have hn : normalize_message (some s) = s := by simp [normalize_message, hs]
    rw [hn]
    unfold classify_msg
    rw [show ERROR_PATTERNS
        = ("nxdomain", "Website not found. Please check the URL and try again.", "FAILED")
          :: ERROR_PATTERNS.tail from rfl]
    rw [List.find?_cons_of_pos _ (by simpa using h)]

/-- C8 witness: the NXDOMAIN clause instantiated at a concrete mixed-case
message. -/
theorem C8_classify_error_spec_witness :
    containsSub (strLower "DNS probe returned NXDOMAIN for host") "nxdomain" = true
    ∧ classify_error (some "DNS probe returned NXDOMAIN for host") =
        { user_message := "Website not found. Please check the URL and try again.",
          technical_message := "DNS probe returned NXDOMAIN for host", status := "FAILED" } :=
  ⟨by decide, C8_classify_error_spec.2.1 "DNS probe returned NXDOMAIN for host" (by decide)⟩

/-- C9: the notifier never mutates the audit row (so a COMPLETE audit stays
COMPLETE with all fields unchanged), a network/transport error schedules a
retry with countdown `60 * 2 ^ retries` capped at 5 retries, and an HTTP
status error or any other exception is dropped without retry. -/
theorem C9_notifier_policy :
    (∀ (cu k : Option String) (a : Option Audit) (r : Nat) (o : DeliveryOutcome),
        (send_report_to_dashboard cu k a r o).2 = a)
    ∧ (∀ (u key : String) (a0 : Audit) (r : Nat) (e : String),
        (send_report_to_dashboard (some u) (some key) (some a0) r
          (DeliveryOutcome.requestError e)).1 = DeliveryAction.retryAfter (60 * 2 ^ r) 5)
    ∧ (∀ (u key : String) (a0 : Audit) (r : Nat) (c : Int),
        (send_report_to_dashboard (some u) (some key) (some a0) r
          (DeliveryOutcome.statusError c)).1 = DeliveryAction.dropped)
    ∧ (∀ (u key : String) (a0 : Audit) (r : Nat) (e : String),
        (send_report_to_dashboard (some u) (some key) (some a0) r
          (DeliveryOutcome.otherError e)).1 = DeliveryAction.dropped)
    ∧ (∀ (u key : String) (a0 : Audit) (r : Nat) (c : Int),
        (send_report_to_dashboard (some u) (some key) (some a0) r
          (DeliveryOutcome.success c)).1 = DeliveryAction.delivered) := by
  refine ⟨?_, fun _ _ _ _ _ => rfl, fun _ _ _ _ _ => rfl, fun _ _ _ _ _ => rfl,
    fun _ _ _ _ _ => rfl⟩
  intro cu k a r o
  cases a with
  | none => rfl
  | some x =>
      unfold send_report_to_dashboard
      by_cases hc : (cu.isNone || k.isNone) = true
      · simp [hc]
      · simp only [hc]
        cases o <;> simp

/-- C2 counterexample: an audit whose status is the terminal `ERROR` is not
protected by the idempotent-failure guard — `_mark_audit_failed` overwrites
its status, messages, report and completion time. -/
theorem C2_counterexample :
    c2_error_audit.status = "ERROR"
    ∧ (mark_audit_failed "unexpected worker loss" 99 c2_error_audit).status = "FAILED"
    ∧ (mark_audit_failed "unexpected worker loss" 99 c2_error_audit).completed_at = some 99
    ∧ (mark_audit_failed "unexpected worker loss" 99 c2_error_audit).error_message
        = some "Something went wrong while analyzing this website. Please try again." :=
  ⟨rfl, rfl, rfl, rfl⟩

/-- C2 (amended): the terminal-state guard covers exactly `FAILED` and
`COMPLETE` — for an audit in either of those statuses `_mark_audit_failed`
performs no write at all (the duplicate failure is discarded); an audit in
status `ERROR` is not protected and is overwritten. -/
theorem C2_amended (a : Audit) (msg : String) (now : Nat)
    (h : a.status = "FAILED" ∨ a.status = "COMPLETE") :
    mark_audit_failed msg now a = a := by
  unfold mark_audit_failed
  rw [if_pos h]

/-- C2 witness: the amended guard instantiated on a concrete FAILED audit. -/
theorem C2_amended_witness :
    (c2_failed_audit.status = "FAILED" ∨ c2_failed_audit.status = "COMPLETE")
    ∧ mark_audit_failed "second failure" 77 c2_failed_audit = c2_failed_audit :=
  ⟨Or.inl rfl, C2_amended c2_failed_audit "second failure" 77 (Or.inl rfl)⟩

/-- The failure write on any non-terminal audit replaces `report_json` with
the empty object. -/
theorem mark_audit_failed_overwrites (a : Audit) (msg : String) (now : Nat)
    (h : ¬(a.status = "FAILED" ∨ a.status = "COMPLETE")) :
    (mark_audit_failed msg now a).report_json = some (JVal.jobj []) := by
  unfold mark_audit_failed
  rw [if_neg h]

/-- C1 counterexample: after `compile_report_from_crawl` persists the
`ANALYZING_EXTERNAL` checkpoint with a non-empty `internal_broken_links`
bucket, a stage failure routed through `_mark_audit_failed` leaves the
report as the empty object — the internal findings are erased, not
retained. -/
theorem C1_counterexample :
    report_field (save_initial_report c1_checkpoint_report c1_start_audit)
        "internal_broken_links" = some c1_broken_bucket
    ∧ (mark_audit_failed "Failed to read crawl output: boom" 42
        (save_initial_report c1_checkpoint_report c1_start_audit)).report_json
        = some (JVal.jobj [])
    ∧ report_field (mark_audit_failed "Failed to read crawl output: boom" 42
        (save_initial_report c1_checkpoint_report c1_start_audit))
        "internal_broken_links" = none :=
  ⟨rfl, rfl, rfl⟩

/-- C1 (amended): the `ANALYZING_EXTERNAL` checkpoint survives only failures
that never invoke the failure write: whenever a stage failure does invoke
`_mark_audit_failed` on the checkpointed (non-terminal) audit, the persisted
report is replaced by the empty object `{}` and every internal-findings key
of the report — indeed every key — reads back as absent. -/
theorem C1_amended (r : JVal) (a : Audit) (msg : String) (now : Nat) :
    (mark_audit_failed msg now (save_initial_report r a)).report_json
      = some (JVal.jobj [])
    ∧ ∀ k, report_field (mark_audit_failed msg now (save_initial_report r a)) k = none := by
  have hne : ¬((save_initial_report r a).status = "FAILED"
      ∨ (save_initial_report r a).status = "COMPLETE") := by
    simp [save_initial_report]
  refine ⟨mark_audit_failed_overwrites _ msg now hne, ?_⟩
  intro k
  simp [report_field, mark_audit_failed_overwrites _ msg now hne, jlookup]

/-- C6 counterexample: a crawl record whose heading field is the string
`"A@@B"` is reported as a single successful H1 with the raw string as value
— not as the multiple-headings FAILURE with `count = 2` and the split
list. -/
theorem C6_counterexample :
    h1_check (H1Field.strField "A@@B") =
      Except.ok
        { status := "SUCCESS", check := "h1_heading",
          message := "Exactly one H1 tag found.", count := 1, value := CheckValue.vstr "A@@B" }
    ∧ h1_check (H1Field.strField "A@@B") ≠
      Except.ok
        { status := "FAILURE", check := "h1_heading",
          message := "Found 2 H1 tags. Expected 1.", count := 2,
          value := CheckValue.vlist ["A", "B"] } := by
  refine ⟨rfl, ?_⟩
  intro h
  rw [show h1_check (H1Field.strField "A@@B")
      = Except.ok
          ({ status := "SUCCESS", check := "h1_heading",
             message := "Exactly one H1 tag found.", count := 1,
             value := CheckValue.vstr "A@@B" } : CheckResult) from rfl,
    Except.ok.injEq] at h
  exact absurd h (by decide)

/-- C6 (amended): the heading field is never split, and native lists are
only partially handled: an absent field or empty list → FAILURE count 0; a
singleton list → SUCCESS with the element; a native list of two or more
headings raises the ambiguous-array-truth `ValueError` inside
`pd.isna(h1_tags)` — no multiple-headings FAILURE finding is ever produced,
the stage is instead aborted and routed to the failure write; any non-empty
string — `"A@@B"` included — is reported as exactly one SUCCESS heading with
the raw string as its value, and the empty string as FAILURE count 0. -/
theorem C6_amended :
    h1_check H1Field.absent =
      Except.ok
        { status := "FAILURE", check := "h1_heading", message := "No H1 tag found.",
          count := 0, value := CheckValue.vlist [] }
    ∧ h1_check (H1Field.listField []) =
      Except.ok
        { status := "FAILURE", check := "h1_heading", message := "No H1 tag found.",
          count := 0, value := CheckValue.vlist [] }
    ∧ (∀ x, h1_check (H1Field.listField [x]) =
        Except.ok
          { status := "SUCCESS", check := "h1_heading",
            message := "Exactly one H1 tag found.", count := 1, value := CheckValue.vstr x })
    ∧ (∀ x y rest, h1_check (H1Field.listField (x :: y :: rest))
        = Except.error ambiguous_truth_error)
    ∧ (∀ (x y : String) (rest : List String) (a : Audit) (now : Nat),
        analyze_h1_stage (H1Field.listField (x :: y :: rest)) a now
          = (Except.error ambiguous_truth_error,
             mark_audit_failed ("Failed to compile page-level report: "
               ++ ambiguous_truth_error) now a))
    ∧ (∀ s, ¬ s = "" → h1_check (H1Field.strField s) =
        Except.ok
          { status := "SUCCESS", check := "h1_heading",
            message := "Exactly one H1 tag found.", count := 1, value := CheckValue.vstr s })
    ∧ h1_check (H1Field.strField "") =
      Except.ok
        { status := "FAILURE", check := "h1_heading", message := "No H1 tag found.",
          count := 0, value := CheckValue.vlist [] }
    ∧ h1_check (H1Field.strField "A@@B") =
      Except.ok
        { status := "SUCCESS", check := "h1_heading",
          message := "Exactly one H1 tag found.", count := 1, value := CheckValue.vstr "A@@B" } := by
  refine ⟨rfl, rfl, fun x => rfl, fun x y rest => rfl, fun x y rest a now => rfl, ?_, rfl, rfl⟩
  intro s hs
  simp [h1_check, hs]

/-- C6 witness: the string clause of the amended claim at a concrete
heading. -/
theorem C6_amended_witness :
    ¬("Welcome" = "")
    ∧ h1_check (H1Field.strField "Welcome") =
        Except.ok
          { status := "SUCCESS", check := "h1_heading",
            message := "Exactly one H1 tag found.", count := 1,
            value := CheckValue.vstr "Welcome" } :=
  ⟨by decide, C6_amended.2.2.2.2.2.1 "Welcome" (by decide)⟩

/-- C10: every status a bucket can receive is the sentinel `-1` or lies in
400-599; a status matching no branch of the chain leaves the report
untouched; and a row whose status is outside 200-399 but also outside the
bucket domain (a 1xx, or a negative sentinel other than `-1`) is selected as
an error row yet silently dropped from the report. -/
theorem C10_bucket_domain :
    (∀ (s : Int) (b : Bucket), categorize s = some b → s = -1 ∨ (400 ≤ s ∧ s ≤ 599))
    ∧ (∀ s : Int, (s = -1 ∨ (400 ≤ s ∧ s ≤ 599)) → (categorize s).isSome = true)
    ∧ (∀ (r : ExternalReport) (li : LinkInfo), add_to_bucket r li 100 = r)
    ∧ (¬(200 ≤ (100 : Int) ∧ (100 : Int) ≤ 399)
        ∧ process_error_rows []
            [{ url := "https://odd.example/x", status := 100, method_used := "HEAD_ONLY" }]
            = ExternalReport.empty)
    ∧ (¬(200 ≤ (-2 : Int) ∧ (-2 : Int) ≤ 399)
        ∧ process_error_rows []
            [{ url := "https://odd.example/y", status := -2, method_used := "HEAD_ONLY" }]
            = ExternalReport.empty) := by
  refine ⟨?_, ?_, fun r li => rfl, ⟨by decide, by decide⟩, ⟨by decide, by decide⟩⟩
  · intro s b h
    unfold categorize at h
    split_ifs at h with h1 h2 h3 h4 h5 h6
    · exact Or.inl h1
    · right; omega
    · right; omega
    · right; omega
    · right; omega
    · right; omega
  · intro s hs
    unfold categorize
    split_ifs with h1 h2 h3 h4 h5 h6
    all_goals simp
    all_goals omega

/-- C10 witness: the bucket-domain bound applied at status 404. -/
theorem C10_bucket_domain_witness :
    categorize 404 = some Bucket.broken
    ∧ ((404 : Int) = -1 ∨ (400 ≤ (404 : Int) ∧ (404 : Int) ≤ 599)) :=
  ⟨by decide, C10_bucket_domain.1 404 Bucket.broken (by decide)⟩

/-- C4 counterexample: the claim extends suppression to 5xx, but the
classifier only ever fires on 4xx — the auth-matching URL at status 500 is
not suppressed and lands in the broken-links bucket (the same URL at 404
does match a suppression category). -/
theorem C4_counterexample :
    (is_likely_false_positive "https://example.com/login/page" 404).1 = true
    ∧ (is_likely_false_positive "https://example.com/login/page" 500).1 = false
    ∧ (process_error_rows []
        [{ url := "https://example.com/login/page", status := 500, method_used := "HEAD_ONLY" }]).broken_links
        = [{ url := "https://example.com/login/page", status := StatusVal.code 500,
             source_urls := ["External Link Check"] }] := by
  decide

/-- C4 (amended): the sentinel `-1` is never suppressed; suppression is
confined to 4xx — any status below 400 (other than `-1`) or at/above 500 is
never suppressed; a suppressed row contributes to no bucket; and
representatives of all six suppression categories (auth path, auth
subdomain, bot-blocking social platform, marketing/tracking, partner
redirect, enterprise/intranet, CDN/asset) are suppressed at status 404 while
the auth-pattern URL at `-1` is not. -/
theorem C4_amended :
    (∀ url : String, (is_likely_false_positive url (-1)).1 = false)
    ∧ (∀ (url : String) (s : Int), 500 ≤ s → (is_likely_false_positive url s).1 = false)
    ∧ (∀ (url : String) (s : Int), s < 400 → ¬ s = -1 → (is_likely_false_positive url s).1 = false)
    ∧ (∀ (m : List (String × List String)) (r : ExternalReport) (row : ProbeRow),
        (is_likely_false_positive row.url row.status).1 = true → process_row m r row = r)
    ∧ ((is_likely_false_positive "https://example.com/login/page" 404).1 = true
        ∧ (is_likely_false_positive "https://account.example.com/x" 404).1 = true
        ∧ (is_likely_false_positive "https://www.facebook.com/somepage" 404).1 = true
        ∧ (is_likely_false_positive "https://stats.google-analytics.com/collect" 404).1 = true
        ∧ (is_likely_false_positive "https://example.com/go/deal" 404).1 = true
        ∧ (is_likely_false_positive "https://x.corp.example.com/page" 404).1 = true
        ∧ (is_likely_false_positive "https://cdn.example.com/lib.js" 404).1 = true)
    ∧ (is_likely_false_positive "https://example.com/login/page" (-1)).1 = false := by
  refine ⟨fun url => rfl, ?_, ?_, ?_, by decide, rfl⟩
  · intro url s h
    unfold is_likely_false_positive
    rw [if_neg (by omega : ¬ s = -1), if_pos (Or.inr h)]
  · intro url s h1 h2
    unfold is_likely_false_positive
    rw [if_neg h2, if_pos (Or.inl h1)]
  · intro m r row h
    unfold process_row
    rw [if_pos h]

/-- C4 witness: the 5xx clause applied at a concrete auth-gated URL and
status 503. -/
theorem C4_amended_witness :
    (500 ≤ (503 : Int))
    ∧ (is_likely_false_positive "https://example.com/login/page" 503).1 = false :=
  ⟨by decide, C4_amended.2.1 "https://example.com/login/page" 503 (by decide)⟩

/-- In a list of probe results with duplicate-free URLs, filtering by a
member's URL yields exactly that pair. -/
theorem filter_key_singleton (hr : List (String × Int)) (u : String) (s : Int)
    (hnd : (hr.map Prod.fst).Nodup) (hmem : (u, s) ∈ hr) :
    hr.filter (fun p => p.1 == u) = [(u, s)] := by
  induction hr with
  | nil => cases hmem
  | cons a t ih =>
      rw [List.map_cons, List.nodup_cons] at hnd
      rcases List.mem_cons.mp hmem with rfl | hm
      · rw [List.filter_cons_of_pos (by simp)]
        have ht : t.filter (fun p => p.1 == u) = [] := by
          rw [List.filter_eq_nil_iff]
          intro p hp hpe
          rw [beq_iff_eq] at hpe
          have hmm : p.1 ∈ t.map Prod.fst := List.mem_map_of_mem Prod.fst hp
          rw [hpe] at hmm
          exact hnd.1 hmm
        rw [ht]
      · have hau : ¬((fun p : String × Int => p.1 == u) a = true) := by
          simp only [beq_iff_eq]
          intro he
          apply hnd.1
          rw [he]
          exact List.mem_map_of_mem Prod.fst hm
        rw [List.filter_cons, if_neg hau]
        exact ih hnd.2 hm

/-- Filtering by URL-match combined with any second test is the second test
applied to the unique matching pair. -/
theorem filter_key_and (hr : List (String × Int)) (u : String) (s : Int) (w : String × Int → Bool)
    (hnd : (hr.map Prod.fst).Nodup) (hmem : (u, s) ∈ hr) :
    hr.filter (fun p => p.1 == u && w p) = if w (u, s) then [(u, s)] else [] := by
  have h1 : hr.filter (fun p => p.1 == u && w p) = hr.filter (fun p => w p && (p.1 == u)) :=
    List.filter_congr (by intro a _; exact Bool.and_comm _ _)
  rw [h1, ← List.filter_filter, filter_key_singleton hr u s hnd hmem]
  by_cases hw : w (u, s) = true
  · rw [List.filter_cons_of_pos hw, if_pos hw]
    rfl
  · rw [List.filter_cons_of_neg hw, if_neg hw]
    rfl

/-- C3: the protocol fallback.  For any HEAD phase over duplicate-free URLs
and any GET oracle: a URL whose HEAD status is 4xx or `-1` appears in the
chunk output exactly once, carrying the GET result (the fallback supersedes
the HEAD result); a URL whose HEAD status needs no fallback appears exactly
once with its HEAD result; and concretely a HEAD 404 followed by a GET 200
contributes no finding to any bucket of the merged report. -/
theorem C3_protocol_fallback :
    (∀ (hr : List (String × Int)) (get : String → Int) (u : String) (s : Int),
        (hr.map Prod.fst).Nodup → (u, s) ∈ hr →
        (run_advertools_chunk hr get).filter (fun r => r.url == u)
          = [if needs_fallback s then
               { url := u, status := get u, method_used := "GET_FALLBACK" }
             else { url := u, status := s, method_used := "HEAD_ONLY" }])
    ∧ process_error_rows []
        (run_advertools_chunk [("https://partner.example/price", 404)] (fun _ => 200))
        = ExternalReport.empty := by
  refine ⟨?_, by decide⟩
  intro hr get u s hnd hmem
  unfold run_advertools_chunk
  rw [List.filter_append, List.map_map, List.filter_map, List.filter_map,
    List.filter_filter, List.filter_filter]
  have hk : (fun p : String × Int =>
      ((fun r : ProbeRow => r.url == u) ∘ fun p : String × Int =>
        ({ url := p.1, status := p.2, method_used := "HEAD_ONLY" } : ProbeRow)) p
        && !needs_fallback p.2) = fun p : String × Int => p.1 == u && !needs_fallback p.2 := rfl
  have hg : (fun p : String × Int =>
      ((fun r : ProbeRow => r.url == u) ∘
        ((fun x : String => ({ url := x, status := get x, method_used := "GET_FALLBACK" } : ProbeRow))
          ∘ Prod.fst)) p && needs_fallback p.2)
      = fun p : String × Int => p.1 == u && needs_fallback p.2 := rfl
  rw [hk, hg, filter_key_and hr u s _ hnd hmem, filter_key_and hr u s _ hnd hmem]
  by_cases hs : needs_fallback s = true
  · rw [if_neg (by simp [hs]), if_pos hs, if_pos hs]
    rfl
  · rw [if_pos (by simp [hs]), if_neg hs, if_neg hs]
    rfl

/-- C3 witness: the characterisation applied to a concrete one-URL HEAD
phase whose 404 escalates to a GET returning 200. -/
theorem C3_protocol_fallback_witness :
    (([("https://partner.example/price", 404)].map Prod.fst).Nodup
      ∧ ("https://partner.example/price", (404 : Int)) ∈ [("https://partner.example/price", 404)])
    ∧ (run_advertools_chunk [("https://partner.example/price", 404)] (fun _ => 200)).filter
        (fun r => r.url == "https://partner.example/price")
        = [if needs_fallback 404 then
             { url := "https://partner.example/price", status := 200, method_used := "GET_FALLBACK" }
           else { url := "https://partner.example/price", status := 404, method_used := "HEAD_ONLY" }] :=
  ⟨⟨by decide, by decide⟩,
    C3_protocol_fallback.1 [("https://partner.example/price", 404)] (fun _ => 200)
      "https://partner.example/price" 404 (by decide) (by decide)⟩

/-- Lookup after one accumulation step: the inserted key's entry grows by
the new source, every other entry is untouched. -/
theorem lookup_add_source (m : List (String × List String)) (k v u : String) :
    lookup_assoc (add_source m k v) u =
      if k = u then some ((lookup_assoc m u).getD [] ++ [v]) else lookup_assoc m u := by
  induction m with
  | nil =>
      by_cases h : k = u
      · subst h; simp [add_source, lookup_assoc]
      · simp [add_source, lookup_assoc, h]
  | cons a t ih =>
      obtain ⟨k0, v0⟩ := a
      by_cases h1 : k0 = k
      · subst h1
        by_cases h2 : k0 = u
        · subst h2; simp [add_source, lookup_assoc]
        · simp [add_source, lookup_assoc, h2, fun h => h2 (h : k0 = u)]
      · by_cases h2 : k0 = u
        · subst h2
          have hk : ¬ k = k0 := fun h => h1 h.symm
          simp [add_source, lookup_assoc, h1, hk]
        · simp [add_source, lookup_assoc, h1, h2, ih]

/-- Lookup through the whole accumulation fold: the entry of `u` collects the
second components of all records keyed `u`, in order, appended to whatever
the initial accumulator held. -/
theorem lookup_foldl_add (links : List (String × String)) (m : List (String × List String))
    (u : String) :
    lookup_assoc (links.foldl (fun acc p => add_source acc p.1 p.2) m) u =
      match lookup_assoc m u with
      | some l0 => some (l0 ++ (links.filter (fun p => p.1 == u)).map Prod.snd)
      | none =>
          if (links.filter (fun p => p.1 == u)) = [] then none
          else some ((links.filter (fun p => p.1 == u)).map Prod.snd) := by
  induction links generalizing m with
  | nil => cases h : lookup_assoc m u <;> simp [h]
  | cons p t ih =>
      rw [List.foldl_cons, ih, lookup_add_source]
      by_cases hp : p.1 = u
      · rw [if_pos hp]
        have hf : (p :: t).filter (fun q => q.1 == u) = p :: t.filter (fun q => q.1 == u) := by
          rw [List.filter_cons, if_pos (by simp [hp])]
        rw [hf]
        cases h : lookup_assoc m u <;> simp [h]
      · rw [if_neg hp]
        have hf : (p :: t).filter (fun q => q.1 == u) = t.filter (fun q => q.1 == u) := by
          rw [List.filter_cons, if_neg (by simp [hp])]
        rw [hf]

/-- Lookup commutes with per-entry deduplication of the values. -/
theorem lookup_map_dedupe (m : List (String × List String)) (u : String) :
    lookup_assoc (m.map (fun p => (p.1, dedupe_keep_order p.2))) u
      = (lookup_assoc m u).map dedupe_keep_order := by
  induction m with
  | nil => rfl
  | cons a t ih =>
      obtain ⟨k0, v0⟩ := a
      by_cases h : k0 = u <;> simp [lookup_assoc, h, ih]

/-- Membership in the deduplicated list: exactly the input elements not
already seen. -/
theorem mem_dedupe_aux (seen xs : List String) (a : String) :
    a ∈ dedupe_aux seen xs ↔ (a ∈ xs ∧ a ∉ seen) := by
  induction xs generalizing seen with
  | nil => simp [dedupe_aux]
  | cons x t ih =>
      by_cases hx : x ∈ seen
      · simp only [dedupe_aux, if_pos hx, ih, List.mem_cons]
        constructor
        · rintro ⟨h1, h2⟩; exact ⟨Or.inr h1, h2⟩
        · rintro ⟨h1 | h1, h2⟩
          · subst h1; exact absurd hx h2
          · exact ⟨h1, h2⟩
      · simp only [dedupe_aux, if_neg hx, List.mem_cons, ih]
        constructor
        · rintro (rfl | ⟨h1, h2⟩)
          · exact ⟨Or.inl rfl, hx⟩
          · exact ⟨Or.inr h1, fun hs => h2 (Or.inr hs)⟩
        · rintro ⟨h1, h2⟩
          by_cases hax : a = x
          · exact Or.inl hax
          · rcases h1 with h1 | h1
            · exact absurd h1 hax
            · refine Or.inr ⟨h1, ?_⟩
              rintro (h3 | h3)
              · exact hax h3
              · exact h2 h3

/-- The deduplicated list has no duplicates. -/
theorem nodup_dedupe_aux (seen xs : List String) : (dedupe_aux seen xs).Nodup := by
  induction xs generalizing seen with
  | nil => simp [dedupe_aux]
  | cons x t ih =>
      by_cases hx : x ∈ seen
      · simpa [dedupe_aux, hx] using ih seen
      · simp only [dedupe_aux, if_neg hx]
        refine List.nodup_cons.mpr ⟨?_, ih (x :: seen)⟩
        intro hmem
        exact ((mem_dedupe_aux _ _ _).mp hmem).2 (List.mem_cons_self x seen)

/-- Anything in the report after one bucket append was there before or is
the appended finding. -/
theorem mem_all_add_to_bucket (r : ExternalReport) (li x : LinkInfo) (s : Int)
    (h : x ∈ (add_to_bucket r li s).all) : x ∈ r.all ∨ x = li := by
  unfold add_to_bucket at h
  cases hc : categorize s with
  | none => rw [hc] at h; exact Or.inl h
  | some b =>
      rw [hc] at h
      cases b <;> simp [ExternalReport.all] at h ⊢ <;> tauto

/-- Every finding produced by the merge loop is built from one of the rows,
with its provenance read off the mapping. -/
theorem mem_foldl_process_row (m : List (String × List String)) (rows : List ProbeRow)
    (r0 : ExternalReport) (x : LinkInfo)
    (h : x ∈ (rows.foldl (process_row m) r0).all) :
    x ∈ r0.all ∨ ∃ row ∈ rows,
      x = { url := row.url, status := render_status row.status,
            source_urls := sources_for m row.url } := by
  induction rows generalizing r0 with
  | nil => exact Or.inl h
  | cons row t ih =>
      rw [List.foldl_cons] at h
      rcases ih _ h with h1 | ⟨row', hr', he⟩
      · unfold process_row at h1
        by_cases hfp : (is_likely_false_positive row.url row.status).1 = true
        · rw [if_pos hfp] at h1; exact Or.inl h1
        · rw [if_neg hfp] at h1
          rcases mem_all_add_to_bucket _ _ _ _ h1 with h2 | h2
          · exact Or.inl h2
          · exact Or.inr ⟨row, List.mem_cons_self row t, h2⟩
      · exact Or.inr ⟨row', List.mem_cons_of_mem _ hr', he⟩

/-- C5: the provenance merge.  The mapping entry of any URL is exactly the
deduplicated, first-occurrence-ordered list of all pages referencing it
(duplicate-free and containing every referring page); every finding of the
merged report carries the provenance list looked up for its URL; and a link
referenced by pages A then B reports `source_urls = [A, B]`. -/
theorem C5_provenance :
    (∀ (links : List (String × String)) (u : String) (l : List String),
        lookup_assoc (build_source_mapping links) u = some l →
        l = dedupe_keep_order ((links.filter (fun p => p.1 == u)).map Prod.snd)
          ∧ l.Nodup
          ∧ (∀ s, s ∈ l ↔ s ∈ (links.filter (fun p => p.1 == u)).map Prod.snd))
    ∧ (∀ (m : List (String × List String)) (rows : List ProbeRow) (x : LinkInfo),
        x ∈ (process_error_rows m rows).all → x.source_urls = sources_for m x.url)
    ∧ lookup_assoc (build_source_mapping
          [("https://ext.example/x", "https://site.example/A"),
           ("https://ext.example/x", "https://site.example/B")]) "https://ext.example/x"
        = some ["https://site.example/A", "https://site.example/B"] := by
  refine ⟨?_, ?_, by decide⟩
  · intro links u l h
    unfold build_source_mapping build_raw_mapping at h
    rw [lookup_map_dedupe, lookup_foldl_add] at h
    simp only [lookup_assoc] at h
    by_cases hf : (links.filter (fun p => p.1 == u)) = []
    · rw [if_pos hf] at h
      simp at h
    · rw [if_neg hf] at h
      simp only [Option.map_some', Option.some.injEq] at h
      have hl := h.symm
      refine ⟨hl, ?_, ?_⟩
      · rw [hl]; exact nodup_dedupe_aux [] _
      · intro s
        rw [hl]
        unfold dedupe_keep_order
        rw [mem_dedupe_aux]
        simp
  · intro m rows x h
    unfold process_error_rows at h
    rcases mem_foldl_process_row m _ _ x h with h1 | ⟨row, _, he⟩
    · simp [ExternalReport.empty, ExternalReport.all] at h1
    · rw [he]

/-- C5 witness: the mapping characterisation at a concrete link referenced
from A, then B, then A again. -/
theorem C5_provenance_witness :
    lookup_assoc (build_source_mapping
        [("https://ext.example/x", "https://site.example/A"),
         ("https://ext.example/x", "https://site.example/B"),
         ("https://ext.example/x", "https://site.example/A")]) "https://ext.example/x"
      = some ["https://site.example/A", "https://site.example/B"]
    ∧ (["https://site.example/A", "https://site.example/B"]
          = dedupe_keep_order ((([("https://ext.example/x", "https://site.example/A"),
              ("https://ext.example/x", "https://site.example/B"),
              ("https://ext.example/x", "https://site.example/A")]).filter
                (fun p => p.1 == "https://ext.example/x")).map Prod.snd)
        ∧ (["https://site.example/A", "https://site.example/B"] : List String).Nodup
        ∧ (∀ s, s ∈ (["https://site.example/A", "https://site.example/B"] : List String)
            ↔ s ∈ (([("https://ext.example/x", "https://site.example/A"),
                ("https://ext.example/x", "https://site.example/B"),
                ("https://ext.example/x", "https://site.example/A")]).filter
                  (fun p => p.1 == "https://ext.example/x")).map Prod.snd)) :=
  ⟨by decide,
    C5_provenance.1
      [("https://ext.example/x", "https://site.example/A"),
       ("https://ext.example/x", "https://site.example/B"),
       ("https://ext.example/x", "https://site.example/A")]
      "https://ext.example/x"
      ["https://site.example/A", "https://site.example/B"] (by decide)⟩

/-- Appending into chunk `n` adds exactly one URL to the flattened chunk
contents. -/
theorem flatten_append_at (cs : List (List String)) (n : Nat) (u : String) :
    ((append_at cs n u).flatten).Perm (u :: cs.flatten) := by
  induction cs generalizing n with
  | nil =>
      induction n with
      | zero => simp [append_at]
      | succ k ihk => simpa [append_at] using ihk
  | cons c t ih =>
      cases n with
      | zero =>
          show ((c ++ [u]) :: t).flatten.Perm (u :: (c :: t).flatten)
          simp only [List.flatten_cons, List.append_assoc, List.singleton_append]
          exact List.perm_middle
      | succ k =>
          show (c :: append_at t k u).flatten.Perm (u :: (c :: t).flatten)
          simp only [List.flatten_cons]
          exact (List.Perm.append_left c (ih k)).trans List.perm_middle

/-- The index-modulo distribution loop deposits each value exactly once. -/
theorem flatten_foldl_append_at (ps : List (Nat × String)) (cs : List (List String)) (mo : Nat) :
    ((ps.foldl (fun acc p => append_at acc (p.1 % mo) p.2) cs).flatten).Perm
      (ps.map Prod.snd ++ cs.flatten) := by
  induction ps generalizing cs with
  | nil => simp
  | cons p t ih =>
      rw [List.foldl_cons]
      refine (ih _).trans ?_
      refine (List.Perm.append_left _ (flatten_append_at cs (p.1 % mo) p.2)).trans ?_
      exact List.perm_middle.trans (List.Perm.of_eq (by simp))

/-- All URLs stored in a domain-group mapping, in entry order. -/
def group_vals (gs : List (String × List String)) : List String :=
  (gs.map Prod.snd).flatten

/-- One grouping step adds exactly the inserted URL to the stored values. -/
theorem group_vals_add_source (gs : List (String × List String)) (k v : String) :
    (group_vals (add_source gs k v)).Perm (v :: group_vals gs) := by
  induction gs with
  | nil => simp [add_source, group_vals]
  | cons a t ih =>
      obtain ⟨k0, l0⟩ := a
      by_cases h : k0 = k
      · simp only [add_source, if_pos h, group_vals, List.map_cons, List.flatten_cons,
          List.append_assoc, List.singleton_append]
        exact List.perm_middle
      · simp only [add_source, if_neg h, group_vals, List.map_cons, List.flatten_cons]
        exact (List.Perm.append_left _ ih).trans List.perm_middle

/-- Grouping a URL list by domain stores exactly the input URLs. -/
theorem group_vals_foldl (urls : List String) (netf : String → String)
    (gs : List (String × List String)) :
    (group_vals (urls.foldl (fun acc u => add_source acc (netf u) u) gs)).Perm
      (urls ++ group_vals gs) := by
  induction urls generalizing gs with
  | nil => exact List.Perm.refl _
  | cons u t ih =>
      rw [List.foldl_cons]
      refine (ih _).trans ?_
      refine (List.Perm.append_left _ (group_vals_add_source gs (netf u) u)).trans ?_
      exact List.perm_middle.trans (List.Perm.of_eq (by simp))

/-- Distributing every group round-robin preserves the URL contents. -/
theorem flatten_distribute_groups (gs : List (String × List String))
    (cs : List (List String)) (mo : Nat) :
    ((gs.foldl (fun acc g => distribute_domain mo acc g.2) cs).flatten).Perm
      (group_vals gs ++ cs.flatten) := by
  induction gs generalizing cs with
  | nil => exact List.Perm.refl _
  | cons g t ih =>
      rw [List.foldl_cons]
      refine (ih _).trans ?_
      have h1 : ((distribute_domain mo cs g.2).flatten).Perm (g.2 ++ cs.flatten) := by
        unfold distribute_domain
        exact (flatten_foldl_append_at _ _ _).trans
          (List.Perm.of_eq (by rw [List.enum_map_snd]))
      refine (List.Perm.append_left _ h1).trans ?_
      rw [← List.append_assoc]
      refine (List.Perm.append_right _ List.perm_append_comm).trans ?_
      exact List.Perm.of_eq (by simp [group_vals])

/-- Splitting an oversized chunk rearranges nothing: the flattened pieces
are the chunk itself. -/
theorem split_chunk_flatten (mo : Nat) (c : List String) :
    (split_chunk mo c).flatten = c := by
  induction c using split_chunk.induct mo with
  | case1 c h ih =>
      rw [split_chunk, dif_pos h, List.flatten_cons, ih]
      exact List.take_append_drop mo c
  | case2 c h1 h2 =>
      rw [split_chunk, dif_neg h1, if_pos h2]
      rw [List.isEmpty_iff] at h2
      simp [h2]
  | case3 c h1 h2 =>
      rw [split_chunk, dif_neg h1, if_neg h2]
      simp

/-- The drop-empty-and-split pass preserves the flattened contents
exactly. -/
theorem flatten_final_fold (mo : Nat) (cs acc : List (List String)) :
    ((cs.foldl (fun acc c => if c.isEmpty then acc else acc ++ split_chunk mo c) acc).flatten)
      = acc.flatten ++ cs.flatten := by
  induction cs generalizing acc with
  | nil => simp
  | cons c t ih =>
      rw [List.foldl_cons]
      by_cases h : c.isEmpty = true
      · rw [if_pos h, ih]
        rw [List.isEmpty_iff] at h
        simp [h]
      · rw [if_neg h, ih, List.flatten_append, split_chunk_flatten, List.flatten_cons,
          List.append_assoc]

/-- Domain-aware chunking is a permutation of its input URL list. -/
theorem chunk_flatten_perm (urls : List String) (mo : Nat) :
    ((chunk_urls_by_domain urls mo).flatten).Perm urls := by
  unfold chunk_urls_by_domain
  rw [flatten_final_fold]
  simp only [List.flatten_nil, List.nil_append]
  refine (flatten_distribute_groups _ _ _).trans ?_
  simp only [List.flatten_nil, List.append_nil]
  refine (group_vals_foldl urls pyNetloc []).trans ?_
  exact List.Perm.of_eq (by simp [group_vals])

/-- C7: the external-link ceiling.  The capped list is exactly the first 100
URLs; at most 100 URLs ever reach the probing chunks; every probed URL comes
from the first 100 of the input (the excess is silently excluded); and 1000
input URLs produce exactly 100 probed URLs. -/
theorem C7_external_cap :
    (∀ urls : List String, limit_external_urls urls = urls.take max_external_links)
    ∧ (∀ urls : List String, ((chunks_to_probe urls).flatten).length ≤ 100)
    ∧ (∀ (urls : List String) (u : String),
        u ∈ (chunks_to_probe urls).flatten → u ∈ urls.take 100)
    ∧ ((chunks_to_probe ((List.range 1000).map
          (fun n => "https://host" ++ toString n ++ ".example/"))).flatten).length = 100 := by
  have hlim : ∀ urls : List String, limit_external_urls urls = urls.take max_external_links := by
    intro urls
    unfold limit_external_urls
    by_cases h : max_external_links < urls.length
    · rw [if_pos h]
    · rw [if_neg h]
      exact (List.take_of_length_le (by omega)).symm
  have hperm : ∀ urls : List String,
      ((chunks_to_probe urls).flatten).Perm (urls.take 100) := by
    intro urls
    unfold chunks_to_probe
    refine (chunk_flatten_perm _ _).trans ?_
    rw [hlim]
    exact List.Perm.refl _
  refine ⟨hlim, ?_, ?_, ?_⟩
  · intro urls
    rw [(hperm urls).length_eq, List.length_take]
    omega
  · intro urls u hu
    exact (hperm urls).mem_iff.mp hu
  · rw [(hperm _).length_eq]
    simp

/-- C7 witness: membership in the probed set applied at a one-URL input. -/
theorem C7_external_cap_witness :
    ("https://a.example/" ∈ (chunks_to_probe ["https://a.example/"]).flatten)
    ∧ "https://a.example/" ∈ (["https://a.example/"] : List String).take 100 := by
  have hsc : split_chunk 20 ["https://a.example/"] = [["https://a.example/"]] := by
    rw [split_chunk]
    simp
  have hchunks : chunks_to_probe ["https://a.example/"] = [["https://a.example/"]] := by
    show ([] : List (List String)) ++ split_chunk 20 ["https://a.example/"]
      = [["https://a.example/"]]
    rw [hsc]
    rfl
  have hmem : "https://a.example/" ∈ (chunks_to_probe ["https://a.example/"]).flatten := by
    rw [hchunks]
    simp
  exact ⟨hmem,
    C7_external_cap.2.2.1 ["https://a.example/"] "https://a.example/" hmem⟩

end SeoAudit
